import Mathlib

/-!
Verification of the VendSwift backend lookup service (`src/main.py`).

The service is a single read-only HTTP endpoint
`GET /machines/{machine_code}/products` backed by two parameterized SQL
queries against a relational store (machines, products, machine_products),
plus a trivial health endpoint.

We embed the code shallowly:

* The relational store's rows become Lean structures; the two SQL
  statements issued by the handler are denoted as Lean functions over a
  `DB` value (filter / join / order-by on lists), with their literal
  statement texts kept as string constants.
* The handler `get_machine_products` is a pure function from an abstract
  `Store` oracle (which may fail, modelling psycopg2 exceptions) and the
  input `machine_code` to an `Outcome` together with an event trace
  recording connection open/close and every statement executed (with its
  bound parameter).  The trace makes resource-release and
  "no second query" claims statable.
* Decimal prices are modelled as exact rationals (`Rat`).
-/

set_option maxRecDepth 4096

/-- A row of the `machines` relation. -/
structure MachineRow where
  id : Nat
  code : String
  name : String
  is_active : Bool
deriving DecidableEq, Repr

/-- A row of the `products` relation. -/
structure ProductRow where
  id : Nat
  sku : String
  name : String
  description : Option String
  image_url : Option String
deriving DecidableEq, Repr

/-- A row of the `machine_products` join relation. -/
structure MachineProductRow where
  machine_id : Nat
  product_id : Nat
  price : Rat
  currency : String
  is_active : Bool
deriving DecidableEq, Repr

/-- The external relational store: the three relations of the data model. -/
structure DB where
  machines : List MachineRow
  products : List ProductRow
  machine_products : List MachineProductRow
deriving DecidableEq, Repr

/-- A result row of the second (products) query, as selected by the SQL:
`p.sku, p.name, p.description, mp.price, mp.currency, p.image_url`. -/
structure Q2Row where
  sku : String
  name : String
  description : Option String
  price : Rat
  currency : String
  image_url : Option String
deriving DecidableEq, Repr

/-- The `ProductOut` pydantic response model. -/
structure ProductOut where
  id : String
  name : String
  description : Option String
  price : Rat
  currency : String
  image_url : Option String
deriving DecidableEq, Repr

/-- The `MachineProductsResponse` pydantic response model. -/
structure MachineProductsResponse where
  machine_id : String
  machine_name : String
  products : List ProductOut
deriving DecidableEq, Repr

/-- The caller-visible outcome of one invocation: a success body, an
`HTTPException` (status code and detail, as raised on line 67 of
`main.py`), or an uncaught store exception surfaced by the framework as a
generic internal error. -/
inductive Outcome where
  | success (r : MachineProductsResponse)
  | httpError (status : Nat) (detail : String)
  | internalError
deriving DecidableEq, Repr

/-- A bound query parameter: the handler binds either the raw
`machine_code` string (query 1) or the resolved internal machine id
(query 2). -/
inductive Param where
  | str (s : String)
  | nat (n : Nat)
deriving DecidableEq, Repr

/-- Observable store events of one invocation: connection acquisition,
execution of a statement (with its full SQL text and its bound
parameter), and connection close. -/
inductive Event where
  | openConn
  | exec (sql : String) (param : Param)
  | closeConn
deriving DecidableEq, Repr

/-- The literal text of the first statement (machine lookup), lines
58-62 of `main.py`.  A constant: the input only appears as the bound
parameter. -/
def machinesSQL : String :=
  "SELECT id, code, name\nFROM machines\nWHERE code = %s AND is_active = TRUE"

/-- The literal text of the second statement (product catalog), lines
75-82 of `main.py`.  A constant: the resolved machine id only appears as
the bound parameter. -/
def productsSQL : String :=
  "SELECT p.sku, p.name, p.description, mp.price, mp.currency, p.image_url\nFROM machine_products mp\nJOIN products p ON p.id = mp.product_id\nWHERE mp.machine_id = %s AND mp.is_active = TRUE\nORDER BY p.name;"

/-- Abstract store oracle: how the store answers connection acquisition
and each of the two statements.  `Except.error` models a psycopg2
exception (connection or query-execution failure). -/
structure Store where
  connect : Except Unit Unit
  execMachineQ : String → Except Unit (List MachineRow)
  execProductsQ : Nat → Except Unit (List Q2Row)

/-- The row-to-`ProductOut` mapping of the list comprehension on lines
87-97 of `main.py`: `id` is the row's `sku`; the other fields copy over
(the price coercion is modelled on the exact rational value). -/
def toProductOut (row : Q2Row) : ProductOut :=
  { id := row.sku
    name := row.name
    description := row.description
    price := row.price
    currency := row.currency
    image_url := row.image_url }

/-- The body of the `try` block of `get_machine_products` (lines 55-103):
query 1, `fetchone`, the 404 branch, query 2, `fetchall`, and response
assembly.  Returns the outcome together with the statements executed. -/
def runBody (st : Store) (machine_code : String) : Outcome × List Event :=
  match st.execMachineQ machine_code with
  | Except.error _ => (Outcome.internalError, [Event.exec machinesSQL (Param.str machine_code)])
  | Except.ok rows =>
    match rows.head? with
    | none =>
      (Outcome.httpError 404 "Machine not found",
       [Event.exec machinesSQL (Param.str machine_code)])
    | some machine =>
      match st.execProductsQ machine.id with
      | Except.error _ =>
        (Outcome.internalError,
         [Event.exec machinesSQL (Param.str machine_code),
          Event.exec productsSQL (Param.nat machine.id)])
      | Except.ok rows2 =>
        (Outcome.success
          { machine_id := machine.code
            machine_name := machine.name
            products := rows2.map toProductOut },
         [Event.exec machinesSQL (Param.str machine_code),
          Event.exec productsSQL (Param.nat machine.id)])

/-- The handler `get_machine_products` (lines 46-106 of `main.py`):
acquire a connection via `get_conn` (a failure there propagates before
the `try` block, so no connection event is recorded), run the body, and
close the connection in the `finally` clause on every path. -/
def get_machine_products (st : Store) (machine_code : String) :
    Outcome × List Event :=
  match st.connect with
  | Except.error _ => (Outcome.internalError, [])
  | Except.ok _ =>
    let r := runBody st machine_code
    (r.1, Event.openConn :: r.2 ++ [Event.closeConn])

/-- Denotation of query 1 over a `DB`: rows of `machines` whose `code`
equals the bound parameter and whose `is_active` is true, in store
order (the statement has no ORDER BY). -/
def machinesQueryRows (db : DB) (code : String) : List MachineRow :=
  db.machines.filter (fun m => m.code == code && m.is_active)

/-- The unsorted inner join of query 2 over a `DB`: `machine_products`
rows with the given `machine_id` and `is_active` true, joined to
`products` on `p.id = mp.product_id`, projected to the selected
columns. -/
def joinRows (db : DB) (mid : Nat) : List Q2Row :=
  (db.machine_products.filter (fun mp => mp.machine_id == mid && mp.is_active)).flatMap
    (fun mp =>
      (db.products.filter (fun p => p.id == mp.product_id)).map
        (fun p =>
          { sku := p.sku
            name := p.name
            description := p.description
            price := mp.price
            currency := mp.currency
            image_url := p.image_url }))

/-- Kernel-reducible lexicographic comparison of character lists by code
point: the store's default byte-wise string collation. -/
def strLeB : List Char → List Char → Bool
  | [], _ => true
  | _ :: _, [] => false
  | c :: cs, d :: ds =>
    if c.toNat < d.toNat then true
    else if d.toNat < c.toNat then false
    else strLeB cs ds

/-- Kernel-reducible string comparison, agreeing with `String` order
(`strLe_iff`). -/
def strLe (a b : String) : Bool := strLeB a.data b.data

theorem charLt_iff (c d : Char) : c < d ↔ c.toNat < d.toNat := by
  rw [Char.lt_def, UInt32.lt_def, BitVec.lt_def]
  exact Iff.rfl

theorem char_eq_of_toNat_eq {c d : Char} (h : c.toNat = d.toNat) : c = d :=
  Char.ext (UInt32.ext h)

theorem strLeB_iff_not_lex : ∀ cs ds : List Char,
    strLeB cs ds = true ↔ ¬ List.Lex (· < ·) ds cs
  | [], ds => ⟨(fun _ h => nomatch h), (fun _ => rfl)⟩
  | c :: cs, [] => ⟨(fun h => nomatch h), (fun h => absurd List.Lex.nil h)⟩
  | c :: cs, d :: ds => by
    unfold strLeB
    rcases Nat.lt_trichotomy c.toNat d.toNat with hlt | heq | hgt
    · rw [if_pos hlt]
      constructor
      · intro _ hL
        cases hL with
        | cons h => exact absurd hlt (Nat.lt_irrefl _)
        | rel h => exact absurd ((charLt_iff d c).mp h) (Nat.lt_asymm hlt)
      · intro _
        rfl
    · rw [if_neg (by omega), if_neg (by omega)]
      have hcd : c = d := char_eq_of_toNat_eq heq
      subst hcd
      rw [strLeB_iff_not_lex cs ds]
      constructor
      · intro hn hL
        cases hL with
        | cons h => exact hn h
        | rel h => exact absurd ((charLt_iff c c).mp h) (Nat.lt_irrefl _)
      · intro hn hL
        exact hn (List.Lex.cons hL)
    · rw [if_neg (by omega), if_pos hgt]
      constructor
      · intro h
        exact nomatch h
      · intro hn
        exact absurd (List.Lex.rel ((charLt_iff d c).mpr hgt)) hn

/-- The executable comparison agrees with the standard `String` order. -/
theorem strLe_iff (a b : String) : strLe a b = true ↔ a ≤ b := by
  rw [String.le_iff_toList_le, ← not_lt]
  exact strLeB_iff_not_lex a.data b.data

/-- The ORDER BY key of query 2: ascending by the product's name. -/
def q2le (a b : Q2Row) : Prop := strLe a.name b.name = true

instance : DecidableRel q2le := fun a b => by
  unfold q2le; infer_instance

instance : IsTotal Q2Row q2le :=
  ⟨fun a b => by
    unfold q2le
    rw [strLe_iff a.name b.name, strLe_iff b.name a.name]
    exact le_total a.name b.name⟩

instance : IsTrans Q2Row q2le :=
  ⟨fun a b c h1 h2 => by
    unfold q2le at h1 h2 ⊢
    rw [strLe_iff] at h1 h2 ⊢
    exact le_trans h1 h2⟩

/-- Denotation of query 2 over a `DB`: the join rows ordered ascending
by product name (`ORDER BY p.name`). -/
def productsQueryRows (db : DB) (mid : Nat) : List Q2Row :=
  List.insertionSort q2le (joinRows db mid)

/-- The store oracle induced by a concrete `DB` with no failures: each
statement is answered by its SQL denotation. -/
def dbStore (db : DB) : Store :=
  { connect := Except.ok ()
    execMachineQ := fun code => Except.ok (machinesQueryRows db code)
    execProductsQ := fun mid => Except.ok (productsQueryRows db mid) }

/-- The `/health` endpoint (lines 41-43 of `main.py`): a fixed response,
no store interaction. -/
def health_check : String × String := ("status", "ok")

/-! ### Helper lemmas -/

theorem head?_mem {α : Type} {l : List α} {a : α} (h : l.head? = some a) :
    a ∈ l := by
  cases l with
  | nil => simp at h
  | cons b t =>
    simp [List.head?] at h
    simp [h]

/-- Inversion of the success path: a success outcome determines the
connection acquisition, both query results, and the response shape. -/
theorem success_inv (st : Store) (mc : String) (r : MachineProductsResponse)
    (t : List Event)
    (h : get_machine_products st mc = (Outcome.success r, t)) :
    ∃ rows m rows2,
      st.connect = Except.ok () ∧
      st.execMachineQ mc = Except.ok rows ∧
      rows.head? = some m ∧
      st.execProductsQ m.id = Except.ok rows2 ∧
      r = { machine_id := m.code, machine_name := m.name,
            products := rows2.map toProductOut } := by
  unfold get_machine_products at h
  rcases hc : st.connect with e | u
  · rw [hc] at h; simp at h
  · cases u
    rw [hc] at h
    simp only [] at h
    unfold runBody at h
    rcases h1 : st.execMachineQ mc with e | rows
    · rw [h1] at h; simp at h
    · rw [h1] at h
      simp only [] at h
      rcases hm : rows.head? with _ | m
      · rw [hm] at h; simp at h
      · rw [hm] at h
        simp only [] at h
        rcases h2 : st.execProductsQ m.id with e | rows2
        · rw [h2] at h; simp at h
        · rw [h2] at h
          simp only [Prod.mk.injEq, Outcome.success.injEq] at h
          exact ⟨rows, m, rows2, rfl, rfl, hm, h2, h.1.symm⟩

/-- Membership in the machine query's result characterizes the filter
predicate of the first statement. -/
theorem mem_machinesQueryRows {db : DB} {mc : String} {m : MachineRow}
    (h : m ∈ machinesQueryRows db mc) :
    m ∈ db.machines ∧ m.code = mc ∧ m.is_active = true := by
  unfold machinesQueryRows at h
  rcases List.mem_filter.mp h with ⟨hmem, hp⟩
  simp only [Bool.and_eq_true, beq_iff_eq] at hp
  exact ⟨hmem, hp.1, hp.2⟩

/-- Forward computation of the success path: explicit outcome and trace
from the store's answers. -/
theorem run_success_eq (st : Store) (mc : String) (rows : List MachineRow)
    (m : MachineRow) (rows2 : List Q2Row)
    (hc : st.connect = Except.ok ()) (h1 : st.execMachineQ mc = Except.ok rows)
    (hm : rows.head? = some m) (h2 : st.execProductsQ m.id = Except.ok rows2) :
    get_machine_products st mc =
      (Outcome.success { machine_id := m.code, machine_name := m.name,
                         products := rows2.map toProductOut },
       [Event.openConn, Event.exec machinesSQL (Param.str mc),
        Event.exec productsSQL (Param.nat m.id), Event.closeConn]) := by
  simp [get_machine_products, runBody, hc, h1, hm, h2]

/-- C1: for every successful lookup, the response's `machine_id` equals
the machine's external scan code — which is the value matched by the
query, hence the input `machine_code` — never the internal database id,
and `machine_name` equals the resolved machine's stored name. -/
theorem C1_machine_id_is_scan_code (db : DB) (mc : String)
    (r : MachineProductsResponse) (t : List Event)
    (h : get_machine_products (dbStore db) mc = (Outcome.success r, t)) :
    r.machine_id = mc ∧
    ∃ m, m ∈ db.machines ∧ m.is_active = true ∧ m.code = mc ∧
      r.machine_id = m.code ∧ r.machine_name = m.name := by
  obtain ⟨rows, m, rows2, _, h1, hm, _, hr⟩ := success_inv _ _ _ _ h
  simp only [dbStore, Except.ok.injEq] at h1
  subst h1
  subst hr
  have hmem := mem_machinesQueryRows (head?_mem hm)
  exact ⟨hmem.2.1, m, hmem.1, hmem.2.2, hmem.2.1, rfl, rfl⟩

/-- C2: when the machine query returns zero rows — in particular when the
only matching row has `is_active = false`, since the active filter is
part of the query predicate — the handler returns 404 with detail
"Machine not found" and its trace holds exactly one statement execution:
the second (products) query is never issued. -/
theorem C2_not_found_no_second_query (db : DB) (mc : String)
    (h : machinesQueryRows db mc = []) :
    get_machine_products (dbStore db) mc =
      (Outcome.httpError 404 "Machine not found",
       [Event.openConn, Event.exec machinesSQL (Param.str mc),
        Event.closeConn]) ∧
    ∀ m, m ∈ db.machines → m.is_active = false → m ∉ machinesQueryRows db mc := by
  constructor
  · simp [get_machine_products, runBody, dbStore, h]
  · intro m _ hina hmem
    have := (mem_machinesQueryRows hmem).2.2
    rw [hina] at this
    exact Bool.false_ne_true this

/-- C4: an active machine with zero active product rows yields a success
outcome with an empty product list, not an error. -/
theorem C4_empty_catalog_is_success (db : DB) (mc : String) (m : MachineRow)
    (hm : (machinesQueryRows db mc).head? = some m)
    (hp : joinRows db m.id = []) :
    get_machine_products (dbStore db) mc =
      (Outcome.success { machine_id := m.code, machine_name := m.name,
                         products := [] },
       [Event.openConn, Event.exec machinesSQL (Param.str mc),
        Event.exec productsSQL (Param.nat m.id), Event.closeConn]) := by
  have h2 : (dbStore db).execProductsQ m.id = Except.ok [] := by
    simp [dbStore, productsQueryRows, hp]
  have := run_success_eq (dbStore db) mc (machinesQueryRows db mc) m [] rfl rfl hm h2
  simpa using this

/-- C3: for an active machine whose products query returns N rows, the
response's product sequence has length N, is sorted ascending by product
name (the ORDER BY key), and is row-for-row the mapped query result:
each ProductView is `toProductOut` of a join row (id := sku, plus name,
description, price, currency, image_url). -/
theorem C3_products_sorted_by_name (db : DB) (mc : String)
    (r : MachineProductsResponse) (t : List Event) (m : MachineRow)
    (h : get_machine_products (dbStore db) mc = (Outcome.success r, t))
    (hm : (machinesQueryRows db mc).head? = some m) :
    r.products = (productsQueryRows db m.id).map toProductOut ∧
    r.products.length = (productsQueryRows db m.id).length ∧
    r.products.length = (joinRows db m.id).length ∧
    List.Pairwise (fun a b : ProductOut => a.name ≤ b.name) r.products ∧
    r.products.Perm ((joinRows db m.id).map toProductOut) := by
  obtain ⟨rows, m2, rows2, _, h1, hm2, h2, hr⟩ := success_inv _ _ _ _ h
  simp only [dbStore, Except.ok.injEq] at h1 h2
  subst h1
  rw [hm] at hm2
  have hmm : m2 = m := (Option.some.inj hm2).symm
  subst hmm
  subst h2
  subst hr
  refine ⟨rfl, by simp, ?_, ?_, ?_⟩
  · simp [productsQueryRows, List.length_insertionSort]
  · exact (List.sorted_insertionSort q2le (joinRows db m2.id)).map toProductOut
      (fun a b hab => (strLe_iff a.name b.name).mp hab)
  · exact (List.perm_insertionSort q2le (joinRows db m2.id)).map toProductOut

/-- When the connection is acquired, the handler is the body wrapped in
the open/close events of the scoped acquisition and the finally clause. -/
theorem get_machine_products_conn_eq (st : Store) (mc : String)
    (h : st.connect = Except.ok ()) :
    get_machine_products st mc =
      ((runBody st mc).1,
       Event.openConn :: (runBody st mc).2 ++ [Event.closeConn]) := by
  unfold get_machine_products
  rw [h]

/-- The body issues either only the machine statement, or the machine
statement followed by the products statement: nothing else, in that
order. -/
theorem runBody_trace (st : Store) (mc : String) :
    (runBody st mc).2 = [Event.exec machinesSQL (Param.str mc)] ∨
    ∃ n, (runBody st mc).2 =
      [Event.exec machinesSQL (Param.str mc),
       Event.exec productsSQL (Param.nat n)] := by
  unfold runBody
  split
  · exact Or.inl rfl
  · split
    · exact Or.inl rfl
    · split
      · exact Or.inr ⟨_, rfl⟩
      · exact Or.inr ⟨_, rfl⟩

/-- Recognizer for connection-open events. -/
def isOpenEvent : Event → Bool
  | Event.openConn => true
  | _ => false

/-- Recognizer for connection-close events. -/
def isCloseEvent : Event → Bool
  | Event.closeConn => true
  | _ => false

/-- C5: on every invocation that acquires a connection, the trace holds
exactly one open and exactly one close, and the close is the final
event before returning — on the success path, the 404 path, and any
store failure after acquisition alike. -/
theorem C5_connection_closed_exactly_once (st : Store) (mc : String)
    (h : st.connect = Except.ok ()) :
    (get_machine_products st mc).2.countP isOpenEvent = 1 ∧
    (get_machine_products st mc).2.countP isCloseEvent = 1 ∧
    (get_machine_products st mc).2.getLast? = some Event.closeConn := by
  rw [get_machine_products_conn_eq st mc h]
  rcases runBody_trace st mc with ht | ⟨n, ht⟩ <;> rw [ht] <;>
    refine ⟨?_, ?_, ?_⟩ <;>
      simp [isOpenEvent, isCloseEvent, List.countP_cons, List.countP_append]

/-- The body when the machine query itself fails. -/
theorem runBody_q1_error (st : Store) (mc : String)
    (h1 : st.execMachineQ mc = Except.error ()) :
    runBody st mc =
      (Outcome.internalError, [Event.exec machinesSQL (Param.str mc)]) := by
  simp [runBody, h1]

/-- The body when the machine is found but the products query fails. -/
theorem runBody_q2_error (st : Store) (mc : String) (rows : List MachineRow)
    (m : MachineRow) (h1 : st.execMachineQ mc = Except.ok rows)
    (hm : rows.head? = some m) (h2 : st.execProductsQ m.id = Except.error ()) :
    runBody st mc =
      (Outcome.internalError,
       [Event.exec machinesSQL (Param.str mc),
        Event.exec productsSQL (Param.nat m.id)]) := by
  simp [runBody, h1, hm, h2]

/-- C6: every connection or query-execution failure against the store
surfaces as the generic internal-error outcome, which is distinct from
every 404 outcome and carries no products (it is not a success): the
response is all-or-nothing. -/
theorem C6_store_failure_is_internal_error (st : Store) (mc : String)
    (hf : st.connect = Except.error () ∨
          (st.connect = Except.ok () ∧
           (st.execMachineQ mc = Except.error () ∨
            ∃ rows m, st.execMachineQ mc = Except.ok rows ∧
              rows.head? = some m ∧
              st.execProductsQ m.id = Except.error ()))) :
    (get_machine_products st mc).1 = Outcome.internalError ∧
    (∀ s d, Outcome.internalError ≠ Outcome.httpError s d) ∧
    (∀ r2, Outcome.internalError ≠ Outcome.success r2) := by
  refine ⟨?_, fun s d h2 => Outcome.noConfusion h2,
    fun r2 h2 => Outcome.noConfusion h2⟩
  rcases hf with hc | ⟨hc, hq⟩
  · unfold get_machine_products
    rw [hc]
  · rw [get_machine_products_conn_eq st mc hc]
    rcases hq with h1 | ⟨rows, m, h1, hm, h2⟩
    · rw [runBody_q1_error st mc h1]
    · rw [runBody_q2_error st mc rows m h1 hm h2]

/-- C7: every statement the handler executes has as its text one of the
two fixed SQL constants — never text built from the input — and the
machine statement's bound parameter is exactly the input
`machine_code`; the two constants are distinct. -/
theorem C7_sql_text_is_constant (st : Store) (mc : String) (sql : String)
    (p : Param) (h : Event.exec sql p ∈ (get_machine_products st mc).2) :
    (sql = machinesSQL ∨ sql = productsSQL) ∧
    (sql = machinesSQL → p = Param.str mc) ∧
    machinesSQL ≠ productsSQL := by
  have hne : machinesSQL ≠ productsSQL := by decide
  rcases hc : st.connect with e | u
  · unfold get_machine_products at h
    rw [hc] at h
    simp at h
  · cases u
    rw [get_machine_products_conn_eq st mc hc] at h
    rcases runBody_trace st mc with ht | ⟨n, ht⟩ <;> rw [ht] at h <;> simp at h
    · exact ⟨Or.inl h.1, fun _ => h.2, hne⟩
    · rcases h with ⟨hs, hp⟩ | ⟨hs, hp⟩
      · exact ⟨Or.inl hs, fun _ => hp, hne⟩
      · exact ⟨Or.inr hs, fun hs2 => absurd (hs2.symm.trans hs) hne, hne⟩

/-- C9: the handler maps the products query's result rows to the
response one-for-one — no deduplication, no post-filtering: the
products list is exactly the row list mapped through `toProductOut`,
one entry per row, duplicates included. -/
theorem C9_rows_mapped_one_for_one (st : Store) (mc : String)
    (rows : List MachineRow) (m : MachineRow) (rows2 : List Q2Row)
    (hc : st.connect = Except.ok ()) (h1 : st.execMachineQ mc = Except.ok rows)
    (hm : rows.head? = some m) (h2 : st.execProductsQ m.id = Except.ok rows2) :
    (get_machine_products st mc).1 =
      Outcome.success { machine_id := m.code, machine_name := m.name,
                        products := rows2.map toProductOut } ∧
    (rows2.map toProductOut).length = rows2.length := by
  rw [run_success_eq st mc rows m rows2 hc h1 hm h2]
  exact ⟨rfl, by simp⟩

/-- C10: the handler is deterministic and stateless: two invocations
with the same input and the same store answers to connection
acquisition and to each query produce identical outcomes and traces
(the handler reads and writes no in-process state). -/
theorem C10_deterministic_stateless (st1 st2 : Store) (mc : String)
    (hc : st1.connect = st2.connect)
    (h1 : st1.execMachineQ mc = st2.execMachineQ mc)
    (h2 : ∀ i, st1.execProductsQ i = st2.execProductsQ i) :
    get_machine_products st1 mc = get_machine_products st2 mc := by
  unfold get_machine_products runBody
  rw [hc, h1]
  simp only [h2]

/-! ### Concrete witnesses -/

/-- 1.50, in lowest terms (kernel-reducible normal form). -/
def usd150 : Rat := ⟨3, 2, by decide, by decide⟩

/-- 2.25, in lowest terms (kernel-reducible normal form). -/
def usd225 : Rat := ⟨9, 4, by decide, by decide⟩

/-- Demo database: the concrete scenario of the external-surface table —
machine "M12" (internal id 7, differing from the code), an inactive
machine, and an active machine with an empty catalog. -/
def demoDB : DB :=
  { machines := [⟨7, "M12", "Lobby Vendor", true⟩,
                 ⟨8, "ZZZ2", "Back Room", false⟩,
                 ⟨10, "M13", "Empty Machine", true⟩]
    products := [⟨1, "COKE-330", "Coke", some "soda", none⟩,
                 ⟨2, "CHIPS-45", "Chips", none, some "img"⟩]
    machine_products := [⟨7, 1, usd150, "USD", true⟩,
                         ⟨7, 2, usd225, "USD", true⟩] }

/-- The response the demo database yields for machine code "M12". -/
def demoResp : MachineProductsResponse :=
  { machine_id := "M12"
    machine_name := "Lobby Vendor"
    products := [⟨"CHIPS-45", "Chips", none, usd225, "USD", some "img"⟩,
                 ⟨"COKE-330", "Coke", some "soda", usd150, "USD", none⟩] }

/-- The event trace of the demo success lookup. -/
def demoTrace : List Event :=
  [Event.openConn, Event.exec machinesSQL (Param.str "M12"),
   Event.exec productsSQL (Param.nat 7), Event.closeConn]

theorem C1_witness :
    demoResp.machine_id = "M12" ∧
    ∃ m, m ∈ demoDB.machines ∧ m.is_active = true ∧ m.code = "M12" ∧
      demoResp.machine_id = m.code ∧ demoResp.machine_name = m.name :=
  C1_machine_id_is_scan_code demoDB "M12" demoResp demoTrace (by decide)

theorem C2_witness :
    get_machine_products (dbStore demoDB) "ZZZ2" =
      (Outcome.httpError 404 "Machine not found",
       [Event.openConn, Event.exec machinesSQL (Param.str "ZZZ2"),
        Event.closeConn]) ∧
    ∀ m, m ∈ demoDB.machines → m.is_active = false →
      m ∉ machinesQueryRows demoDB "ZZZ2" :=
  C2_not_found_no_second_query demoDB "ZZZ2" (by decide)

theorem C3_witness :
    demoResp.products = (productsQueryRows demoDB 7).map toProductOut ∧
    demoResp.products.length = (productsQueryRows demoDB 7).length ∧
    demoResp.products.length = (joinRows demoDB 7).length ∧
    List.Pairwise (fun a b : ProductOut => a.name ≤ b.name) demoResp.products ∧
    demoResp.products.Perm ((joinRows demoDB 7).map toProductOut) :=
  C3_products_sorted_by_name demoDB "M12" demoResp demoTrace
    ⟨7, "M12", "Lobby Vendor", true⟩ (by decide) (by decide)

theorem C4_witness :
    get_machine_products (dbStore demoDB) "M13" =
      (Outcome.success { machine_id := "M13", machine_name := "Empty Machine",
                         products := [] },
       [Event.openConn, Event.exec machinesSQL (Param.str "M13"),
        Event.exec productsSQL (Param.nat 10), Event.closeConn]) :=
  C4_empty_catalog_is_success demoDB "M13" ⟨10, "M13", "Empty Machine", true⟩
    (by decide) (by decide)

theorem C5_witness :
    (get_machine_products (dbStore demoDB) "M12").2.countP isOpenEvent = 1 ∧
    (get_machine_products (dbStore demoDB) "M12").2.countP isCloseEvent = 1 ∧
    (get_machine_products (dbStore demoDB) "M12").2.getLast? =
      some Event.closeConn :=
  C5_connection_closed_exactly_once (dbStore demoDB) "M12" rfl

/-- A store whose query executions always fail (connection acquired). -/
def failStore : Store :=
  { connect := Except.ok ()
    execMachineQ := fun _ => Except.error ()
    execProductsQ := fun _ => Except.error () }

theorem C6_witness :
    (get_machine_products failStore "M12").1 = Outcome.internalError ∧
    (∀ s d, Outcome.internalError ≠ Outcome.httpError s d) ∧
    (∀ r2, Outcome.internalError ≠ Outcome.success r2) :=
  C6_store_failure_is_internal_error failStore "M12"
    (Or.inr ⟨rfl, Or.inl rfl⟩)

theorem C7_witness :
    (machinesSQL = machinesSQL ∨ machinesSQL = productsSQL) ∧
    (machinesSQL = machinesSQL → Param.str "M12" = Param.str "M12") ∧
    machinesSQL ≠ productsSQL :=
  C7_sql_text_is_constant (dbStore demoDB) "M12" machinesSQL
    (Param.str "M12") (by decide)

/-- A duplicated join row, as a store violating the at-most-one-active-row
invariant would return it. -/
def dupRow : Q2Row :=
  { sku := "COKE-330"
    name := "Coke"
    description := none
    price := usd150
    currency := "USD"
    image_url := none }

/-- A store returning the same join row twice for one machine. -/
def dupStore : Store :=
  { connect := Except.ok ()
    execMachineQ := fun _ => Except.ok [⟨7, "M12", "Lobby Vendor", true⟩]
    execProductsQ := fun _ => Except.ok [dupRow, dupRow] }

theorem C9_witness :
    (get_machine_products dupStore "M12").1 =
      Outcome.success { machine_id := "M12", machine_name := "Lobby Vendor",
                        products := [dupRow, dupRow].map toProductOut } ∧
    ([dupRow, dupRow].map toProductOut).length = [dupRow, dupRow].length :=
  C9_rows_mapped_one_for_one dupStore "M12" [⟨7, "M12", "Lobby Vendor", true⟩]
    ⟨7, "M12", "Lobby Vendor", true⟩ [dupRow, dupRow] rfl rfl rfl rfl

/-- A store that differs from `dbStore demoDB` on machine codes other
than "M12" but answers the issued queries identically. -/
def altStore : Store :=
  { connect := Except.ok ()
    execMachineQ := fun c =>
      if c = "M12" then Except.ok (machinesQueryRows demoDB c)
      else Except.error ()
    execProductsQ := fun i => Except.ok (productsQueryRows demoDB i) }

theorem C10_witness :
    get_machine_products (dbStore demoDB) "M12" =
      get_machine_products altStore "M12" :=
  C10_deterministic_stateless (dbStore demoDB) altStore "M12" rfl
    (by rfl) (fun i => rfl)
